import Mathlib

/-
Formal model of the deepseekerbot backend (src/main.py): the per-user
conversational mode router, the CoinGecko symbol resolution and quote
pipeline, the AI provider fallback chain with caching, the menu
preference store, and the single-instance lock.  Effectful Python code
is embedded as pure functions over explicit inputs standing for the
Redis reads, HTTP responses and provider outcomes observed during one
handler invocation; the theorems below settle the specification
properties against these definitions.
-/

/-- Model of Python str.lower as used on coin symbols and ids
(ASCII case folding, applied codepoint by codepoint). -/
def strLower (s : String) : String := ⟨s.data.map Char.toLower⟩

/-- Model of Python str.upper as used on the quoted coin symbol. -/
def strUpper (s : String) : String := ⟨s.data.map Char.toUpper⟩

/-- Model of Python str.startswith, written over the codepoint list so
that it is kernel computable. -/
def strStartsWith (s pre : String) : Bool := pre.data.isPrefixOf s.data

/-- Model of Python str.split with separator underscore, as used on
callback data in button handling. -/
def pySplitUnderscore (s : String) : List String :=
  (s.data.splitOn ('_')).map (fun l => ⟨l⟩)

/-- One entry of the CoinGecko coins list: the fields read by
main.py lines 92 to 94. -/
structure CoinEntry where
  id : String
  symbol : String
  deriving DecidableEq, Repr

/-- The match test of main.py line 93: the lowered input equals the
lowered entry symbol or the lowered entry id. -/
def entryMatches (input : String) (c : CoinEntry) : Bool :=
  strLower input == strLower c.symbol || strLower input == strLower c.id

/-- The scan loop of main.py lines 91 to 95: first matching entry in
listing order sets coin_id and breaks. -/
def findCoinId (input : String) : List CoinEntry → Option String
  | [] => none
  | c :: rest => if entryMatches input c then some c.id else findCoinId input rest

/-- The guard of main.py line 97: Python falsiness of coin_id, which
rejects both None and the empty string. -/
def coinIdCheck : Option String → Option String
  | some s => if s = "" then none else some s
  | none => none

/-- Symbol or name resolution, main.py lines 87 to 98.  The listings
argument is the result of get_coins_list: none when the cache missed
and the live fetch failed.  Python falsiness of the listings value also
rejects an empty list. -/
def resolveCoin (input : String) (listings : Option (List CoinEntry)) : Option String :=
  match listings with
  | none => none
  | some l => if l.isEmpty then none else coinIdCheck (findCoinId input l)

/-- A JSON scalar as it appears in the quote body.  Numeric values are
modelled as integers; the claims settled here depend only on whether a
value is numeric, not on its magnitude. -/
inductive JVal where
  | num (n : Int)
  | str (s : String)
  | null
  deriving DecidableEq, Repr

/-- The five field lookups of main.py lines 106 to 110.  A none field
models a KeyError somewhere along the corresponding JSON path. -/
structure QuoteBody where
  name : Option JVal
  symbol : Option JVal
  price : Option JVal
  change : Option JVal
  market_cap : Option JVal
  deriving DecidableEq, Repr

/-- The dict built by main.py lines 105 to 111. -/
structure CoinQuote where
  name : JVal
  symbol : JVal
  price : JVal
  change : JVal
  market_cap : JVal
  deriving DecidableEq, Repr

/-- Field extraction on an HTTP 200 body, main.py lines 104 to 111: a
missing field raises KeyError, and upper on a non-string symbol raises
AttributeError; both are caught at line 115 and turn into None. -/
def parseQuote (b : QuoteBody) : Option CoinQuote :=
  match b.name, b.symbol, b.price, b.change, b.market_cap with
  | some n, some (JVal.str s), some p, some c, some m =>
    some ⟨n, JVal.str (strUpper s), p, c, m⟩
  | _, _, _, _, _ => none

/-- The observable outcome of the quote HTTP request issued at
main.py line 101. -/
inductive QuoteHttp where
  | ok (body : QuoteBody)
  | tooManyRequests
  | otherStatus
  | netError
  deriving DecidableEq, Repr

/-- Result of get_coin_data as consumed by the router: a quote dict,
the rate_limit marker string, or None. -/
inductive CoinDataResult where
  | quote (q : CoinQuote)
  | rateLimit
  | notFound
  deriving DecidableEq, Repr

/-- get_coin_data, main.py lines 85 to 117: resolve the input against
the listing, then classify the quote response.  Status 200 with a body
that fails extraction falls into the exception handler and returns
None; status 429 returns the rate_limit marker; any other status or a
network error returns None. -/
def get_coin_data (input : String) (listings : Option (List CoinEntry))
    (http : QuoteHttp) : CoinDataResult :=
  match resolveCoin input listings with
  | none => CoinDataResult.notFound
  | some _ =>
    match http with
    | QuoteHttp.ok body =>
      match parseQuote body with
      | some q => CoinDataResult.quote q
      | none => CoinDataResult.notFound
    | QuoteHttp.tooManyRequests => CoinDataResult.rateLimit
    | QuoteHttp.otherStatus => CoinDataResult.notFound
    | QuoteHttp.netError => CoinDataResult.notFound

/-- The fixed final fallback string of main.py line 150. -/
def fallbackMsg : String :=
  "I couldn\x27t generate a response right now. Please try again later."

/-- TTL in seconds used for the AI answer cache write, main.py line 134. -/
def aiCacheTTL : Nat := 3600

/-- The AI cache key of main.py lines 123 and 134: the user id and the
first fifty codepoints of the query. -/
def aiCacheKey (userId query : String) : String :=
  ("ai:") ++ userId ++ (":") ++ query.take 50

/-- The cached text the code acts on, main.py lines 122 to 127: a Redis
error is caught and treated like a miss, and Python falsiness of the
value makes an empty cached string fall through as well. -/
def cacheHitText : Except Unit (Option String) → Option String
  | Except.ok (some c) => if c = "" then none else some c
  | Except.ok none => none
  | Except.error _ => none

/-- Whether a provider call failed from the point of view of the
chain, main.py lines 130 to 147: the call raised, or returned a falsy
answer. -/
def providerFailed : Except Unit String → Bool
  | Except.error _ => true
  | Except.ok s => s == ""

/-- What one invocation of get_ai_response produced: the reply text,
the attempted cache write with its TTL if any, and how many provider
HTTP calls were issued. -/
structure AIOutcome where
  response : String
  cacheWrite : Option (String × Nat)
  providerCalls : Nat
  deriving DecidableEq, Repr

/-- The second provider branch of main.py lines 142 to 150: a truthy
ChatGPT answer is returned without any cache write, otherwise the
fixed fallback string is returned. -/
def tryChatgpt : Except Unit String → AIOutcome
  | Except.ok c => if c = "" then ⟨fallbackMsg, none, 2⟩ else ⟨c, none, 2⟩
  | Except.error _ => ⟨fallbackMsg, none, 2⟩

/-- get_ai_response, main.py lines 121 to 150, over the observed cache
read and the two provider call outcomes.  A cache hit returns at once
with zero provider calls; a truthy first answer is written back with a
one hour TTL; otherwise the second provider is tried. -/
def get_ai_response (cacheGet : Except Unit (Option String))
    (deepseek chatgpt : Except Unit String) : AIOutcome :=
  match cacheHitText cacheGet with
  | some c => ⟨c, none, 0⟩
  | none =>
    match deepseek with
    | Except.ok d => if d = "" then tryChatgpt chatgpt else ⟨d, some (d, aiCacheTTL), 1⟩
    | Except.error _ => tryChatgpt chatgpt

/-- The reply sent by handle_message, main.py lines 301 to 337,
abstracted to its branch. -/
inductive ReplyKind where
  | rateLimitedMsg
  | quoteMsg (text : String)
  | formatErrMsg
  | notFoundMsg
  | aiMsg (s : String)
  | chooseOptionMsg
  deriving DecidableEq, Repr

/-- Python str conversion as used in the reply f-string. -/
def jvalStr : JVal → String
  | JVal.num n => toString n
  | JVal.str s => s
  | JVal.null => "None"

/-- The f-string of main.py lines 308 to 313: the numeric format codes
raise on a non-numeric price, change or market cap, which line 317
turns into the formatting error reply; none models that exception. -/
def formatQuote (q : CoinQuote) : Option String :=
  match q.price, q.change, q.market_cap with
  | JVal.num p, JVal.num c, JVal.num m =>
    some (jvalStr q.name ++ (" (") ++ jvalStr q.symbol ++ (") price ") ++ toString p
      ++ (" change ") ++ toString c ++ (" mcap ") ++ toString m)
  | _, _, _ => none

/-- The observable effect of one handle_message call on the replying
side and on the mode key of the sending user. -/
structure MessageEffect where
  reply : ReplyKind
  modeAfter : Option String
  deriving DecidableEq, Repr

/-- handle_message, main.py lines 291 to 337, over the mode string read
from Redis, the coin lookup result and the AI chain response.  Only the
crypto branch deletes the mode key (line 324); the ai branch and the
default branch leave it as it was. -/
def handle_message (current_mode : Option String) (coinResult : CoinDataResult)
    (aiResponse : String) : MessageEffect :=
  if current_mode = some ("crypto") then
    ⟨(match coinResult with
      | CoinDataResult.rateLimit => ReplyKind.rateLimitedMsg
      | CoinDataResult.quote q =>
        (match formatQuote q with
         | some m => ReplyKind.quoteMsg m
         | none => ReplyKind.formatErrMsg)
      | CoinDataResult.notFound => ReplyKind.notFoundMsg), none⟩
  else if current_mode = some ("ai") then
    ⟨ReplyKind.aiMsg aiResponse, current_mode⟩
  else
    ⟨ReplyKind.chooseOptionMsg, current_mode⟩

/-- Effect of the start handler on the menu preference key,
main.py line 194: an unconditional write of grid. -/
def startHandlerPref (_pref : Option String) : Option String := some ("grid")

/-- Effect of button_handler on the menu preference key, main.py lines
344 to 383: only the branch for callback data starting with the menu
underscore tag writes the key, storing the second split component. -/
def buttonHandlerPref (data : String) (pref : Option String) : Option String :=
  if data == ("main_menu") || data == ("crypto") || data == ("ai")
      || data == ("popular_coins") || data == ("settings") then pref
  else if strStartsWith data ("menu_") then
    some ((pySplitUnderscore data).getD 1 (""))
  else pref

/-- State of the singleton lock key bot:instance:lock in the store:
its value if set, and the TTL attached to it if any. -/
structure LockState where
  held : Option String
  ttl : Option Nat
  deriving DecidableEq, Repr

/-- Redis SETNX on the lock key: set if absent, report whether the set
happened. -/
def setnxLock (s : LockState) (v : String) : Bool × LockState :=
  match s.held with
  | some _ => (false, s)
  | none => (true, ⟨some v, none⟩)

/-- Redis EXPIRE on the lock key: attach a TTL when the key exists. -/
def expireLock (s : LockState) (t : Nat) : LockState :=
  match s.held with
  | some _ => ⟨s.held, some t⟩
  | none => s

/-- The acquisition step of main, main.py lines 411 and 414: SETNX of
the value 1, and on success EXPIRE with ten seconds. -/
def acquireLock (s : LockState) : Bool × LockState :=
  match setnxLock s ("1") with
  | (true, s1) => (true, expireLock s1 10)
  | (false, s1) => (false, s1)

/-- Whether process startup continues past the lock check. -/
inductive StartResult where
  | exitConflict
  | proceed
  deriving DecidableEq, Repr

/-- main.py lines 410 to 416 on the happy store: a failed SETNX hits
exit(1), a successful one proceeds to polling. -/
def mainLockStep (s : LockState) : StartResult × LockState :=
  match acquireLock s with
  | (true, s1) => (StartResult.proceed, s1)
  | (false, s1) => (StartResult.exitConflict, s1)

/-- main.py lines 410 to 416 with a fallible store: the try block wraps
both SETNX and EXPIRE, and its except handler only logs, so a raising
store call lets startup proceed; exit(1) raises SystemExit, which the
except Exception clause does not catch, so only an explicit false from
SETNX exits. -/
def mainLockDecision (snx : Except Unit Bool) (expStep : Except Unit Unit) : StartResult :=
  match snx with
  | Except.error _ => StartResult.proceed
  | Except.ok false => StartResult.exitConflict
  | Except.ok true =>
    match expStep with
    | Except.error _ => StartResult.proceed
    | Except.ok _ => StartResult.proceed

theorem tryChatgpt_cacheWrite (ch : Except Unit String) : (tryChatgpt ch).cacheWrite = none := by
  cases ch with
  | ok c =>
    by_cases h : c = ""
    · simp [tryChatgpt, h]
    · simp [tryChatgpt, h]
  | error e => rfl

theorem tryChatgpt_of_failed (ch : Except Unit String) (h : providerFailed ch = true) :
    tryChatgpt ch = ⟨fallbackMsg, none, 2⟩ := by
  cases ch with
  | ok c =>
    have hc : c = "" := by simpa [providerFailed] using h
    simp [tryChatgpt, hc]
  | error e => rfl

theorem tryChatgpt_of_ok (c : String) (hc : ¬ c = "") :
    tryChatgpt (Except.ok c) = ⟨c, none, 2⟩ := by
  simp [tryChatgpt, hc]

theorem get_ai_response_of_hit (cg : Except Unit (Option String)) (ds ch : Except Unit String)
    (c : String) (h : cacheHitText cg = some c) :
    get_ai_response cg ds ch = ⟨c, none, 0⟩ := by
  simp [get_ai_response, h]

theorem get_ai_response_of_first_ok (cg : Except Unit (Option String)) (ch : Except Unit String)
    (d : String) (h : cacheHitText cg = none) (hd : ¬ d = "") :
    get_ai_response cg (Except.ok d) ch = ⟨d, some (d, aiCacheTTL), 1⟩ := by
  simp [get_ai_response, h, hd]

theorem get_ai_response_of_first_failed (cg : Except Unit (Option String))
    (ds ch : Except Unit String) (h : cacheHitText cg = none) (hf : providerFailed ds = true) :
    get_ai_response cg ds ch = tryChatgpt ch := by
  cases ds with
  | ok d =>
    have hd : d = "" := by simpa [providerFailed] using hf
    simp [get_ai_response, h, hd]
  | error e => simp [get_ai_response, h]

theorem coinIdCheck_findCoinId (input : String) (l : List CoinEntry)
    (hids : ∀ c ∈ l, c.id ≠ "") :
    coinIdCheck (findCoinId input l) = (l.find? (entryMatches input)).map CoinEntry.id := by
  induction l with
  | nil => rfl
  | cons c rest ih =>
    by_cases h : entryMatches input c = true
    · have hcid : c.id ≠ "" := hids c (List.mem_cons_self c rest)
      rw [List.find?_cons_of_pos _ h]
      simp only [findCoinId, if_pos h, coinIdCheck, if_neg hcid, Option.map_some']
    · rw [List.find?_cons_of_neg _ h]
      simp only [findCoinId, if_neg h]
      exact ih (fun x hx => hids x (List.mem_cons_of_mem c hx))

/-- C1 counterexample: a text message consumed in ai mode leaves the
mode key set to ai, so the next text message from the same user is
routed to the AI branch again rather than as Idle. -/
theorem ai_mode_not_cleared_cex :
    (handle_message (some ("ai")) CoinDataResult.notFound ("hello")).modeAfter = some ("ai")
    ∧ (handle_message (some ("ai")) CoinDataResult.notFound ("hello")).modeAfter ≠ none
    ∧ (handle_message (some ("ai")) CoinDataResult.notFound ("again")).reply
        = ReplyKind.aiMsg ("again")
    ∧ (handle_message (some ("ai")) CoinDataResult.notFound ("again")).reply
        ≠ ReplyKind.chooseOptionMsg := by
  decide

/-- C1 amended: mode is single-shot in crypto mode only.  Processing a
message in crypto mode clears the mode key regardless of the lookup
outcome, while processing a message in ai mode leaves the mode key set
to ai, so the next message is routed to the AI branch again. -/
theorem mode_single_shot_amended :
    ∀ (res : CoinDataResult) (resp : String),
      (handle_message (some ("crypto")) res resp).modeAfter = none
      ∧ (handle_message (some ("ai")) res resp).modeAfter = some ("ai")
      ∧ (handle_message (some ("ai")) res resp).reply = ReplyKind.aiMsg resp := by
  intro res resp
  exact ⟨rfl, rfl, rfl⟩

/-- C2 counterexample: with a cache miss, a failing first provider and
a second provider answering 4, the chain returns 4 but performs no
cache write at all, against the claimed one hour TTL write. -/
theorem second_provider_not_cached_cex :
    (get_ai_response (Except.ok none) (Except.error ()) (Except.ok ("4"))).response = ("4")
    ∧ (get_ai_response (Except.ok none) (Except.error ()) (Except.ok ("4"))).cacheWrite = none
    ∧ (get_ai_response (Except.ok none) (Except.error ()) (Except.ok ("4"))).cacheWrite
        ≠ some (("4"), aiCacheTTL) := by
  decide

/-- C2 amended: on a cache miss with a failed first provider, a truthy
second provider answer is returned without any cache write; if the
second provider also fails, the fixed fallback string is returned and
nothing is cached; only a truthy first provider answer is cached, with
the one hour TTL. -/
theorem provider_fallback_amended :
    ∀ (cg : Except Unit (Option String)) (ds ch : Except Unit String) (c : String),
      cacheHitText cg = none → providerFailed ds = true →
      ((ch = Except.ok c → ¬ c = "" → get_ai_response cg ds ch = ⟨c, none, 2⟩)
       ∧ (providerFailed ch = true → get_ai_response cg ds ch = ⟨fallbackMsg, none, 2⟩)
       ∧ (∀ d : String, ¬ d = "" →
            get_ai_response cg (Except.ok d) ch = ⟨d, some (d, aiCacheTTL), 1⟩)) := by
  intro cg ds ch c hmiss hdf
  refine ⟨?_, ?_, ?_⟩
  · intro hch hc
    subst hch
    rw [get_ai_response_of_first_failed cg ds _ hmiss hdf, tryChatgpt_of_ok c hc]
  · intro hchf
    rw [get_ai_response_of_first_failed cg ds ch hmiss hdf, tryChatgpt_of_failed ch hchf]
  · intro d hd
    exact get_ai_response_of_first_ok cg ch d hmiss hd

/-- C2 witness: the amended statement evaluated at a concrete miss
with first provider error and second provider answer 4, and at a run
where both providers fail. -/
theorem provider_fallback_amended_witness :
    get_ai_response (Except.ok none) (Except.error ()) (Except.ok ("4")) = ⟨("4"), none, 2⟩
    ∧ get_ai_response (Except.ok none) (Except.error ()) (Except.error ())
        = ⟨fallbackMsg, none, 2⟩ := by
  have h := provider_fallback_amended (Except.ok none) (Except.error ())
    (Except.ok ("4")) ("4") rfl rfl
  have h2 := provider_fallback_amended (Except.ok none) (Except.error ())
    (Except.error ()) ("4") rfl rfl
  exact ⟨h.1 rfl (by decide), h2.2.1 rfl⟩

/-- C4 counterexample: running start for a user whose stored menu
preference is list overwrites it with grid. -/
theorem start_resets_menu_pref_cex :
    startHandlerPref (some ("list")) = some ("grid")
    ∧ startHandlerPref (some ("list")) ≠ some ("list") := by
  decide

/-- C4 amended: the start handler unconditionally resets the stored
menu preference to grid; apart from start, only the settings menu
style selection writes the preference, every other callback leaves it
unchanged, and selecting the list style stores list. -/
theorem menu_pref_writes_amended :
    (∀ pref : Option String, startHandlerPref pref = some ("grid"))
    ∧ (∀ (data : String) (pref : Option String),
        strStartsWith data ("menu_") = false → buttonHandlerPref data pref = pref)
    ∧ (∀ pref : Option String, buttonHandlerPref ("menu_list") pref = some ("list")) := by
  refine ⟨fun pref => rfl, ?_, fun pref => rfl⟩
  intro data pref h
  unfold buttonHandlerPref
  split
  · rfl
  · simp [h]

/-- C4 witness: the amended statement evaluated at the crypto callback
with a stored hybrid preference, and at the list style selection. -/
theorem menu_pref_writes_amended_witness :
    buttonHandlerPref ("crypto") (some ("hybrid")) = some ("hybrid")
    ∧ buttonHandlerPref ("menu_list") none = some ("list") :=
  ⟨menu_pref_writes_amended.2.1 ("crypto") (some ("hybrid")) (by decide),
   menu_pref_writes_amended.2.2 none⟩

/-- C10: a raising store call during lock acquisition is swallowed and
the process proceeds without the lock; only an explicit false result
from SETNX causes the exit. -/
theorem lock_store_error_fail_open :
    (∀ e : Except Unit Unit, mainLockDecision (Except.error ()) e = StartResult.proceed)
    ∧ mainLockDecision (Except.ok true) (Except.error ()) = StartResult.proceed
    ∧ (∀ (snx : Except Unit Bool) (e : Except Unit Unit),
        mainLockDecision snx e = StartResult.exitConflict ↔ snx = Except.ok false) := by
  refine ⟨fun e => rfl, rfl, ?_⟩
  intro snx e
  cases snx with
  | error u => simp [mainLockDecision]
  | ok b => cases b <;> cases e <;> simp [mainLockDecision]

/-- C10 witness: the statement evaluated at a raising SETNX and at an
explicit false SETNX. -/
theorem lock_store_error_fail_open_witness :
    mainLockDecision (Except.error ()) (Except.ok ()) = StartResult.proceed
    ∧ mainLockDecision (Except.ok false) (Except.ok ()) = StartResult.exitConflict :=
  ⟨lock_store_error_fail_open.1 (Except.ok ()),
   (lock_store_error_fail_open.2.2 (Except.ok false) (Except.ok ())).mpr rfl⟩

/-- C3 counterexample: for a resolved coin, an HTTP 200 body missing
every required field yields exactly the same outcome as a coin that
never resolved, and the router replies with the coin-not-found
message; there is no distinct format error outcome. -/
theorem malformed_quote_not_distinct_cex :
    get_coin_data ("btc") (some [⟨("bitcoin"), ("btc")⟩])
        (QuoteHttp.ok ⟨none, none, none, none, none⟩)
      = get_coin_data ("nosuchcoin") (some [⟨("bitcoin"), ("btc")⟩]) QuoteHttp.netError
    ∧ (handle_message (some ("crypto"))
        (get_coin_data ("btc") (some [⟨("bitcoin"), ("btc")⟩])
          (QuoteHttp.ok ⟨none, none, none, none, none⟩)) ("")).reply
      = ReplyKind.notFoundMsg := by
  decide

/-- C3 amended: for a resolved coin, an HTTP 200 body with a missing
or unextractable required field raises inside get_coin_data and yields
None, indistinguishable from NotFound, so the router replies with the
coin-not-found message; only when all five fields extract but the
price, change or market cap value is non numeric does the reply
formatting step fail, giving the distinct formatting error reply. -/
theorem quote_format_amended (input : String) (l : List CoinEntry) (body : QuoteBody)
    (hres : resolveCoin input (some l) ≠ none) :
    (parseQuote body = none →
      get_coin_data input (some l) (QuoteHttp.ok body) = CoinDataResult.notFound
      ∧ (handle_message (some ("crypto"))
          (get_coin_data input (some l) (QuoteHttp.ok body)) ("")).reply
        = ReplyKind.notFoundMsg)
    ∧ (∀ q : CoinQuote, parseQuote body = some q → formatQuote q = none →
        (handle_message (some ("crypto"))
          (get_coin_data input (some l) (QuoteHttp.ok body)) ("")).reply
        = ReplyKind.formatErrMsg) := by
  cases hr : resolveCoin input (some l) with
  | none => exact absurd hr hres
  | some cid =>
    constructor
    · intro hp
      have hg : get_coin_data input (some l) (QuoteHttp.ok body) = CoinDataResult.notFound := by
        simp [get_coin_data, hr, hp]
      exact ⟨hg, by rw [hg]; rfl⟩
    · intro q hq hf
      have hg : get_coin_data input (some l) (QuoteHttp.ok body) = CoinDataResult.quote q := by
        simp [get_coin_data, hr, hq]
      rw [hg]
      simp [handle_message, hf]

/-- C3 witness: the amended statement evaluated at a one entry listing
with an all-missing body, and at a body whose price field holds a
string. -/
theorem quote_format_amended_witness :
    get_coin_data ("btc") (some [⟨("bitcoin"), ("btc")⟩])
        (QuoteHttp.ok ⟨none, none, none, none, none⟩) = CoinDataResult.notFound
    ∧ (handle_message (some ("crypto"))
        (get_coin_data ("btc") (some [⟨("bitcoin"), ("btc")⟩])
          (QuoteHttp.ok ⟨some (JVal.str ("Bitcoin")), some (JVal.str ("btc")),
            some (JVal.str ("oops")), some (JVal.num 1), some (JVal.num 2)⟩)) ("")).reply
      = ReplyKind.formatErrMsg := by
  have h := quote_format_amended ("btc") [⟨("bitcoin"), ("btc")⟩]
    ⟨none, none, none, none, none⟩ (by decide)
  have h2 := quote_format_amended ("btc") [⟨("bitcoin"), ("btc")⟩]
    ⟨some (JVal.str ("Bitcoin")), some (JVal.str ("btc")),
      some (JVal.str ("oops")), some (JVal.num 1), some (JVal.num 2)⟩ (by decide)
  refine ⟨(h.1 (by decide)).1, h2.2
    ⟨JVal.str ("Bitcoin"), JVal.str ("BTC"), JVal.str ("oops"), JVal.num 1, JVal.num 2⟩
    (by decide) (by decide)⟩

/-- C5: a present, truthy cache entry is returned as the answer with
zero provider calls; the cache key is built from the user id and the
first fifty codepoints of the query, so two queries sharing that
prefix share the key; and every cache write the chain performs stores
a non empty answer, so truthiness never loses a stored entry. -/
theorem ai_cache_hit_short_circuit :
    (∀ (cg : Except Unit (Option String)) (ds ch : Except Unit String) (c : String),
      cacheHitText cg = some c → get_ai_response cg ds ch = ⟨c, none, 0⟩)
    ∧ (∀ (u q1 q2 : String), q1.take 50 = q2.take 50 → aiCacheKey u q1 = aiCacheKey u q2)
    ∧ (∀ (cg : Except Unit (Option String)) (ds ch : Except Unit String) (d : String) (t : Nat),
      (get_ai_response cg ds ch).cacheWrite = some (d, t) → ¬ d = "") := by
  refine ⟨?_, ?_, ?_⟩
  · intro cg ds ch c h
    exact get_ai_response_of_hit cg ds ch c h
  · intro u q1 q2 h
    simp [aiCacheKey, h]
  · intro cg ds ch d t hw
    cases hc : cacheHitText cg with
    | some c =>
      rw [get_ai_response_of_hit cg ds ch c hc] at hw
      simp at hw
    | none =>
      cases ds with
      | ok d0 =>
        by_cases h0 : d0 = ""
        · subst h0
          rw [get_ai_response_of_first_failed cg (Except.ok ("")) ch hc rfl,
            tryChatgpt_cacheWrite] at hw
          simp at hw
        · rw [get_ai_response_of_first_ok cg ch d0 hc h0] at hw
          simp at hw
          intro hde
          exact h0 (by rw [hw.1, hde])
      | error e =>
        rw [get_ai_response_of_first_failed cg (Except.error e) ch hc rfl,
          tryChatgpt_cacheWrite] at hw
        simp at hw

/-- C5 witness: the statement evaluated at a concrete cached answer and
at two queries sharing a fifty codepoint prefix. -/
theorem ai_cache_hit_short_circuit_witness :
    get_ai_response (Except.ok (some ("hi"))) (Except.error ()) (Except.error ())
      = ⟨("hi"), none, 0⟩
    ∧ aiCacheKey ("7") ("abc") = aiCacheKey ("7") ("abc") :=
  ⟨ai_cache_hit_short_circuit.1 (Except.ok (some ("hi"))) (Except.error ())
      (Except.error ()) ("hi") (by decide),
   ai_cache_hit_short_circuit.2.1 ("7") ("abc") ("abc") rfl⟩

/-- C6: the chain always returns a user displayable string, namely the
cached text, one of the two provider answers, or the fixed fallback
string; and when the cache misses and both providers fail, the result
is exactly the fixed fallback string. -/
theorem answer_never_fails :
    ∀ (cg : Except Unit (Option String)) (ds ch : Except Unit String),
      ((get_ai_response cg ds ch).response = fallbackMsg
        ∨ cacheHitText cg = some ((get_ai_response cg ds ch).response)
        ∨ ds = Except.ok ((get_ai_response cg ds ch).response)
        ∨ ch = Except.ok ((get_ai_response cg ds ch).response))
      ∧ (cacheHitText cg = none → providerFailed ds = true → providerFailed ch = true →
        (get_ai_response cg ds ch).response = fallbackMsg) := by
  intro cg ds ch
  constructor
  · cases hc : cacheHitText cg with
    | some c =>
      right; left
      rw [get_ai_response_of_hit cg ds ch c hc]
    | none =>
      cases ds with
      | ok d =>
        by_cases hd : d = ""
        · subst hd
          rw [get_ai_response_of_first_failed cg (Except.ok ("")) ch hc rfl]
          cases ch with
          | ok c2 =>
            by_cases hc2 : c2 = ""
            · left
              rw [tryChatgpt_of_failed _ (by simp [providerFailed, hc2])]
            · right; right; right
              rw [tryChatgpt_of_ok c2 hc2]
          | error e =>
            left
            rw [tryChatgpt_of_failed (Except.error e) rfl]
        · right; right; left
          rw [get_ai_response_of_first_ok cg ch d hc hd]
      | error e =>
        rw [get_ai_response_of_first_failed cg (Except.error e) ch hc rfl]
        cases ch with
        | ok c2 =>
          by_cases hc2 : c2 = ""
          · left
            rw [tryChatgpt_of_failed _ (by simp [providerFailed, hc2])]
          · right; right; right
            rw [tryChatgpt_of_ok c2 hc2]
        | error e2 =>
          left
          rw [tryChatgpt_of_failed (Except.error e2) rfl]
  · intro h1 h2 h3
    rw [get_ai_response_of_first_failed cg ds ch h1 h2, tryChatgpt_of_failed ch h3]

/-- C6 witness: the statement evaluated at a run where the cache read
raises and both providers raise, giving the fixed fallback string. -/
theorem answer_never_fails_witness :
    (get_ai_response (Except.error ()) (Except.error ()) (Except.error ())).response
      = fallbackMsg :=
  (answer_never_fails (Except.error ()) (Except.error ()) (Except.error ())).2 rfl rfl rfl

/-- C7: symbol or name resolution over an available listing with non
empty coin ids equals the first entry, in listing order, whose symbol
or id matches the input case insensitively, returning its id; with no
matching entry, or with the listing unavailable, it returns None. -/
theorem resolve_symbol_or_name_spec (input : String) (l : List CoinEntry)
    (hids : ∀ c ∈ l, c.id ≠ "") :
    resolveCoin input none = none
    ∧ resolveCoin input (some l) = (l.find? (entryMatches input)).map CoinEntry.id
    ∧ ((∀ c ∈ l, entryMatches input c = false) → resolveCoin input (some l) = none) := by
  have hmain : resolveCoin input (some l) = (l.find? (entryMatches input)).map CoinEntry.id := by
    cases l with
    | nil => rfl
    | cons c rest => exact coinIdCheck_findCoinId input (c :: rest) hids
  refine ⟨rfl, hmain, ?_⟩
  intro hnone
  rw [hmain, List.find?_eq_none.mpr (fun a ha => by simp [hnone a ha])]
  rfl

/-- C7 witness: the statement evaluated on a two entry listing sharing
the symbol btc, where the first entry in listing order wins, and on an
unavailable listing. -/
theorem resolve_symbol_or_name_spec_witness :
    resolveCoin ("BTC") (some [⟨("bitcoin"), ("btc")⟩, ⟨("btc-2x"), ("btc")⟩])
      = some ("bitcoin")
    ∧ resolveCoin ("zzz") none = none := by
  have h := resolve_symbol_or_name_spec ("BTC")
    [⟨("bitcoin"), ("btc")⟩, ⟨("btc-2x"), ("btc")⟩] (by decide)
  refine ⟨?_, h.1⟩
  rw [h.2.1]
  decide

/-- C8: for a resolved coin, an HTTP 429 quote response yields the
rate limit outcome, which is distinct from the not found outcome, and
the crypto branch of the router replies with the retry later message
rather than the unknown coin message. -/
theorem rate_limited_distinct (input : String) (l : List CoinEntry)
    (hres : resolveCoin input (some l) ≠ none) :
    get_coin_data input (some l) QuoteHttp.tooManyRequests = CoinDataResult.rateLimit
    ∧ CoinDataResult.rateLimit ≠ CoinDataResult.notFound
    ∧ (handle_message (some ("crypto")) CoinDataResult.rateLimit ("")).reply
        = ReplyKind.rateLimitedMsg
    ∧ ReplyKind.rateLimitedMsg ≠ ReplyKind.notFoundMsg := by
  refine ⟨?_, by decide, rfl, by decide⟩
  cases hr : resolveCoin input (some l) with
  | none => exact absurd hr hres
  | some cid => simp [get_coin_data, hr]

/-- C8 witness: the statement evaluated on a one entry listing with the
input BTC. -/
theorem rate_limited_distinct_witness :
    get_coin_data ("BTC") (some [⟨("bitcoin"), ("btc")⟩]) QuoteHttp.tooManyRequests
      = CoinDataResult.rateLimit :=
  (rate_limited_distinct ("BTC") [⟨("bitcoin"), ("btc")⟩] (by decide)).1

/-- C9: from a state where the lock key is absent, acquisition sets the
key with value 1 and a ten second TTL and reports success; run again
immediately on the resulting state, without a release or expiry, it
reports failure, and startup then exits, while the first process
proceeds. -/
theorem instance_lock_acquire_spec (s : LockState) (h : s.held = none) :
    (acquireLock s).1 = true
    ∧ ((acquireLock s).2).held = some ("1")
    ∧ ((acquireLock s).2).ttl = some 10
    ∧ (acquireLock ((acquireLock s).2)).1 = false
    ∧ (mainLockStep ((acquireLock s).2)).1 = StartResult.exitConflict
    ∧ (mainLockStep s).1 = StartResult.proceed := by
  obtain ⟨held, ttl⟩ := s
  dsimp only at h
  subst h
  exact ⟨rfl, rfl, rfl, rfl, rfl, rfl⟩

/-- C9 witness: the statement evaluated from the empty lock state. -/
theorem instance_lock_acquire_spec_witness :
    (acquireLock ⟨none, none⟩).1 = true
    ∧ (acquireLock ((acquireLock ⟨none, none⟩).2)).1 = false
    ∧ (mainLockStep ((acquireLock ⟨none, none⟩).2)).1 = StartResult.exitConflict := by
  have h := instance_lock_acquire_spec ⟨none, none⟩ rfl
  exact ⟨h.1, h.2.2.2.1, h.2.2.2.2.1⟩
